import Mathlib

/-!
# gclient: a shallow embedding of the cache client and its response processing

The development follows `client.go`, `operations.go` and `models.go`.

Conventions of the embedding.

* A Go `error` is `GoError = Option String`: `none` is the nil error, `some m` an error whose
  `Error()` text is `m`.
* A Go `int` is an `Int`; where a JSON number is stored into an `int` the 64-bit range is checked.
* A Go `string` is a `String`, and `len` is its length in bytes (`String.utf8ByteSize`).
* A function that can hit a run-time panic returns an `Outcome`.
* JSON on the wire is represented by its syntax tree `Json`.  A response body is a `Body`: either
  bytes the scanner of `encoding/json` rejects (carrying the scanner's message) or a JSON document.
  The functions named `unmarshal...` and `store...` model `encoding/json`'s `Unmarshal` on the
  concrete target types of this package, following the package's documented rules and the
  wording of its error texts in current Go releases.
* The network and `http.NewRequest` are parameters: a `Client` carries its transport as a
  function, and `Stdlib` says which verb and URL `http.NewRequest` accepts.
-/

namespace Gclient

/-! ## Run-time values -/

/-- The Go `error` interface: `none` is nil. -/
abbrev GoError := Option String

/-- Result of running a function that may be unwound by a run-time panic. -/
inductive Outcome (α : Type) where
  | returned (a : α)
  | panicked (why : String)

/-- Text of the panic raised by a method call through a nil interface value. -/
def nilDereference : String :=
  "runtime error: invalid memory address or nil pointer dereference"

/-- Syntax tree of a JSON document.  A number keeps the literal as it was scanned. -/
inductive Json where
  | null
  | bool (b : Bool)
  | num (lit : String)
  | str (s : String)
  | arr (xs : List Json)
  | obj (ms : List (String × Json))

/-- The bytes of a response body, as the scanner of `encoding/json` sees them. -/
inductive Body where
  | malformed (scanErr : String)
  | json (doc : Json)

/-- A dynamic Go value held in an `interface{}` after generic decoding.  `float64 lit` stands for
the float64 nearest to the literal `lit`; a `map` holds each key once. -/
inductive GoValue where
  | nil
  | bool (b : Bool)
  | float64 (lit : String)
  | string (s : String)
  | slice (xs : List GoValue)
  | map (kvs : List (String × GoValue))

/-! ## Number literals -/

/-- Value of a decimal digit character. -/
def digitVal (c : Char) : Option Nat :=
  if 48 ≤ c.toNat ∧ c.toNat ≤ 57 then some (c.toNat - 48) else none

/-- Split off the longest run of leading decimal digits. -/
def spanDigits : List Char → List Nat × List Char
  | [] => ([], [])
  | c :: cs =>
    match digitVal c with
    | some d => ((spanDigits cs).1.cons d, (spanDigits cs).2)
    | none => ([], c :: cs)

/-- Number denoted by a list of decimal digits. -/
def natOfDigits (ds : List Nat) : Nat :=
  ds.foldl (fun a d => 10 * a + d) 0

/-- The call `strconv.ParseInt(s, 10, 64)`: an optional sign, then one or more decimal digits and
nothing else, with the value in the range of int64. -/
def parseInt64 (s : String) : Option Int :=
  let signed : Bool × List Char :=
    match s.data with
    | '-' :: r => (true, r)
    | '+' :: r => (false, r)
    | r => (false, r)
  match spanDigits signed.2 with
  | ([], _) => none
  | (ds, []) =>
    let n : Int := if signed.1 then - (natOfDigits ds : Int) else (natOfDigits ds : Int)
    if - (2 : Int) ^ 63 ≤ n ∧ n < (2 : Int) ^ 63 then some n else none
  | (_, _ :: _) => none

/-- Smallest magnitude that `strconv.ParseFloat(s, 64)` rounds to infinity: half an ulp above the
largest float64, that is `(2 ^ 53 - 1) * 2 ^ 971 + 2 ^ 970 = (2 ^ 54 - 1) * 2 ^ 970`. -/
def float64Limit : Nat := (2 ^ 54 - 1) * (2 ^ 194) ^ 5

/-- Exponent part of a JSON number literal (the text after the fraction). -/
def exponentOf : List Char → Int
  | c :: r =>
    if c = 'e' ∨ c = 'E' then
      match r with
      | '-' :: ds => - (natOfDigits (spanDigits ds).1 : Int)
      | '+' :: ds => (natOfDigits (spanDigits ds).1 : Int)
      | ds => (natOfDigits (spanDigits ds).1 : Int)
    else 0
  | [] => 0

/-- Whether `strconv.ParseFloat(lit, 64)` reports a range error on the JSON number literal `lit`,
which is what makes generic decoding of a number fail. -/
def floatOverflows (lit : String) : Bool :=
  let body : List Char :=
    match lit.data with
    | '-' :: r => r
    | r => r
  let ip := spanDigits body
  let fp : List Nat × List Char :=
    match ip.2 with
    | '.' :: r => spanDigits r
    | r => ([], r)
  let m := natOfDigits (ip.1 ++ fp.1)
  let k : Int := exponentOf fp.2 - (fp.1.length : Int)
  if 0 ≤ k then decide (float64Limit ≤ m * 10 ^ k.toNat)
  else decide (float64Limit * 10 ^ (-k).toNat ≤ m)

/-! ## Generic decoding into `interface{}` -/

/-- Assignment `m[key] = v` on a map kept as an association list. -/
def mapStore (kvs : List (String × GoValue)) (key : String) (v : GoValue) :
    List (String × GoValue) :=
  match kvs with
  | [] => [(key, v)]
  | (k, w) :: rest => if k = key then (k, v) :: rest else (k, w) :: mapStore rest key v

/-- Text of an `UnmarshalTypeError`: `what` describes the JSON value, `goType` the Go type, and
`ctx` is the struct and field being decoded when there is one. -/
def typeErrorText (what : String) (goType : String) (ctx : Option (String × String)) : String :=
  match ctx with
  | some (st, fld) =>
    "json: cannot unmarshal " ++ what ++ " into Go struct field " ++ st ++ "." ++ fld
      ++ " of type " ++ goType
  | none => "json: cannot unmarshal " ++ what ++ " into Go value of type " ++ goType

mutual
/-- The value that generic decoding (`valueInterface`) builds for a JSON value. -/
def Json.toInterface : Json → GoValue
  | .null => .nil
  | .bool b => .bool b
  | .num lit => if floatOverflows lit then .nil else .float64 lit
  | .str s => .string s
  | .arr xs => .slice (toInterfaceList xs)
  | .obj ms => .map (toInterfaceMembers ms [])
/-- Generic decoding of the elements of an array. -/
def toInterfaceList : List Json → List GoValue
  | [] => []
  | x :: xs => x.toInterface :: toInterfaceList xs
/-- Generic decoding of the members of an object, stored in order into the map `acc`. -/
def toInterfaceMembers :
    List (String × Json) → List (String × GoValue) → List (String × GoValue)
  | [], acc => acc
  | (k, v) :: ms, acc => toInterfaceMembers ms (mapStore acc k v.toInterface)
end

mutual
/-- First number, in document order, that generic decoding cannot convert to float64. -/
def Json.badNumber : Json → Option String
  | .num lit => if floatOverflows lit then some lit else none
  | .arr xs => badNumberList xs
  | .obj ms => badNumberMembers ms
  | _ => none
/-- First unconvertible number among the elements of an array. -/
def badNumberList : List Json → Option String
  | [] => none
  | x :: xs =>
    match x.badNumber with
    | some l => some l
    | none => badNumberList xs
/-- First unconvertible number among the members of an object. -/
def badNumberMembers : List (String × Json) → Option String
  | [] => none
  | (_, v) :: ms =>
    match v.badNumber with
    | some l => some l
    | none => badNumberMembers ms
end

/-! ## Decoding into typed variables -/

/-- How an `UnmarshalTypeError` names the kind of a JSON value. -/
def Json.kindName : Json → String
  | .null => "null"
  | .bool _ => "bool"
  | .num _ => "number"
  | .str _ => "string"
  | .arr _ => "array"
  | .obj _ => "object"

/-- Keep the first error, as `decodeState.saveError` does. -/
def saveError (saved : GoError) (err : GoError) : GoError :=
  match saved with
  | some e => some e
  | none => err

/-- Store a JSON value into a Go `string` variable holding `cur`: a string is stored, `null` has no
effect, anything else is a type error. -/
def storeString (ctx : Option (String × String)) (cur : String) : Json → String × GoError
  | .str s => (s, none)
  | .null => (cur, none)
  | j => (cur, some (typeErrorText j.kindName "string" ctx))

/-- Store a JSON value into a Go `int` variable holding `cur`: a number is stored when its literal
is an integer in range, `null` has no effect, anything else is a type error. -/
def storeInt (ctx : Option (String × String)) (cur : Int) : Json → Int × GoError
  | .num lit =>
    match parseInt64 lit with
    | some n => (n, none)
    | none => (cur, some (typeErrorText ("number " ++ lit) "int" ctx))
  | .null => (cur, none)
  | j => (cur, some (typeErrorText j.kindName "int" ctx))

/-- Store a JSON value into an `interface{}` variable: the generic decoding replaces the content;
a number out of the float64 range is a type error. -/
def storeInterface (ctx : Option (String × String)) (j : Json) : GoValue × GoError :=
  (j.toInterface,
    match j.badNumber with
    | some lit => some (typeErrorText ("number " ++ lit) "float64" ctx)
    | none => none)

/-- Decode the elements of a JSON array into a `[]string` whose current elements are `old`:
element `i` is stored into the existing element `i` when there is one and into a zero string
otherwise (memory between length and capacity is taken to be zeroed). -/
def storeStringElems (ctx : Option (String × String)) :
    List String → List Json → List String × GoError
  | _, [] => ([], none)
  | old, j :: js =>
    let here := storeString ctx (old.headD "") j
    let rest := storeStringElems ctx old.tail js
    (here.1 :: rest.1, saveError here.2 rest.2)

/-- Store a JSON value into a `[]string` variable (`none` is the nil slice): an array is decoded
element by element, `null` sets the slice to nil, anything else is a type error. -/
def storeStringSlice (ctx : Option (String × String)) (cur : Option (List String)) :
    Json → Option (List String) × GoError
  | .arr js =>
    let r := storeStringElems ctx (cur.getD []) js
    (some r.1, r.2)
  | .null => (none, none)
  | j => (cur, some (typeErrorText j.kindName "[]string" ctx))

/-! ## Matching object keys to struct fields -/

/-- Case folding of one rune as far as it can reach an ASCII letter: lower-case ASCII letters, the
long s (U+017F) and the Kelvin sign (U+212A) fold to upper-case ASCII letters. -/
def foldRune (c : Char) : Char :=
  if 97 ≤ c.toNat ∧ c.toNat ≤ 122 then Char.ofNat (c.toNat - 32)
  else if c.toNat = 0x17F then 'S'
  else if c.toNat = 0x212A then 'K'
  else c

/-- Folded form of a name; two names match case-insensitively when their folded forms are equal. -/
def foldName (s : String) : String :=
  String.mk (s.data.map foldRune)

/-- The field that receives an object member: the field whose JSON name is exactly the key, or
else the first field whose name matches it case-insensitively. -/
def matchField (names : List String) (key : String) : Option String :=
  match names.find? (fun n => n = key) with
  | some n => some n
  | none => names.find? (fun n => foldName n = foldName key)

/-- Decode the members of a JSON object in order into a struct value, `setField` storing one
member into the field of the given name; the first error is kept and decoding goes on. -/
def decodeMembers {σ : Type} (names : List String)
    (setField : σ → String → Json → σ × GoError) : σ → List (String × Json) → σ × GoError
  | st, [] => (st, none)
  | st, (k, v) :: ms =>
    match matchField names k with
    | some n =>
      let here := setField st n v
      let rest := decodeMembers names setField here.1 ms
      (rest.1, saveError here.2 rest.2)
    | none => decodeMembers names setField st ms

/-- Decode a JSON document into a struct variable of type `goType` reached through a non-nil
pointer: an object is decoded member by member, `null` has no effect, anything else is a type
error. -/
def decodeStruct {σ : Type} (goType : String) (names : List String)
    (setField : σ → String → Json → σ × GoError) (cur : σ) : Json → σ × GoError
  | .obj ms => decodeMembers names setField cur ms
  | .null => (cur, none)
  | j => (cur, some (typeErrorText j.kindName goType none))

/-! ## models.go -/

/-- Success envelope of `Get`. -/
structure GetKeyResponse where
  Key : String
  Value : GoValue

/-- Method `(*GetKeyResponse).GetValue`. -/
def GetKeyResponse.GetValue (r : GetKeyResponse) : GoValue := r.Value

/-- Success envelope of `Set`. -/
structure SetKeyResponse where
  Key : String
  Value : GoValue
  TTL : Int

/-- Method `(*SetKeyResponse).GetValue`. -/
def SetKeyResponse.GetValue (r : SetKeyResponse) : GoValue := r.Value

/-- Success envelope of `GetSubKey` and `GetSubIndex`. -/
structure GetKeySubResponse where
  Key : String
  SubKey : String
  SubIndex : Int
  Value : GoValue

/-- Method `(*GetKeySubResponse).GetValue`. -/
def GetKeySubResponse.GetValue (r : GetKeySubResponse) : GoValue := r.Value

/-- Success envelope of `Keys` and `KeysMask`; `Keys = none` is the nil slice. -/
structure GetStoredKeysResponse where
  Mask : String
  Keys : Option (List String)

/-- Method `(*GetStoredKeysResponse).GetKeys`. -/
def GetStoredKeysResponse.GetKeys (r : GetStoredKeysResponse) : Option (List String) := r.Keys

/-- Error envelope; its fields carry no JSON tag, so their JSON names are `Code` and `Reason`. -/
structure ErrorResponse where
  Code : Int
  Reason : String

/-- A value of interface type `ValueReader`: the nil interface, or a non-nil pointer to one of the
three envelopes that implement it, shown with the struct it points to. -/
inductive ValueReader where
  | nilValue
  | getKeyResponse (r : GetKeyResponse)
  | setKeyResponse (r : SetKeyResponse)
  | getKeySubResponse (r : GetKeySubResponse)

/-- Method call `box.GetValue()` through the interface; a nil interface makes it panic. -/
def ValueReader.GetValue : ValueReader → Outcome GoValue
  | .nilValue => .panicked nilDereference
  | .getKeyResponse r => .returned r.GetValue
  | .setKeyResponse r => .returned r.GetValue
  | .getKeySubResponse r => .returned r.GetValue

/-- A value of interface type `KeyReader`: the nil interface, or a non-nil pointer to the one
envelope that implements it. -/
inductive KeyReader where
  | nilValue
  | getStoredKeysResponse (r : GetStoredKeysResponse)

/-- Method call `box.GetKeys()` through the interface; a nil interface makes it panic. -/
def KeyReader.GetKeys : KeyReader → Outcome (Option (List String))
  | .nilValue => .panicked nilDereference
  | .getStoredKeysResponse r => .returned r.GetKeys

/-! ## `json.Unmarshal` on the envelopes -/

/-- Store one object member into the named field of a `GetKeyResponse`. -/
def GetKeyResponse.setField (r : GetKeyResponse) (name : String) (j : Json) :
    GetKeyResponse × GoError :=
  if name = "key" then
    let s := storeString (some ("GetKeyResponse", "key")) r.Key j
    ({ r with Key := s.1 }, s.2)
  else if name = "value" then
    let s := storeInterface (some ("GetKeyResponse", "value")) j
    ({ r with Value := s.1 }, s.2)
  else (r, none)

/-- Store one object member into the named field of a `SetKeyResponse`. -/
def SetKeyResponse.setField (r : SetKeyResponse) (name : String) (j : Json) :
    SetKeyResponse × GoError :=
  if name = "key" then
    let s := storeString (some ("SetKeyResponse", "key")) r.Key j
    ({ r with Key := s.1 }, s.2)
  else if name = "value" then
    let s := storeInterface (some ("SetKeyResponse", "value")) j
    ({ r with Value := s.1 }, s.2)
  else if name = "ttl" then
    let s := storeInt (some ("SetKeyResponse", "ttl")) r.TTL j
    ({ r with TTL := s.1 }, s.2)
  else (r, none)

/-- Store one object member into the named field of a `GetKeySubResponse`. -/
def GetKeySubResponse.setField (r : GetKeySubResponse) (name : String) (j : Json) :
    GetKeySubResponse × GoError :=
  if name = "key" then
    let s := storeString (some ("GetKeySubResponse", "key")) r.Key j
    ({ r with Key := s.1 }, s.2)
  else if name = "subkey" then
    let s := storeString (some ("GetKeySubResponse", "subkey")) r.SubKey j
    ({ r with SubKey := s.1 }, s.2)
  else if name = "subindex" then
    let s := storeInt (some ("GetKeySubResponse", "subindex")) r.SubIndex j
    ({ r with SubIndex := s.1 }, s.2)
  else if name = "value" then
    let s := storeInterface (some ("GetKeySubResponse", "value")) j
    ({ r with Value := s.1 }, s.2)
  else (r, none)

/-- Store one object member into the named field of a `GetStoredKeysResponse`. -/
def GetStoredKeysResponse.setField (r : GetStoredKeysResponse) (name : String) (j : Json) :
    GetStoredKeysResponse × GoError :=
  if name = "mask" then
    let s := storeString (some ("GetStoredKeysResponse", "mask")) r.Mask j
    ({ r with Mask := s.1 }, s.2)
  else if name = "keys" then
    let s := storeStringSlice (some ("GetStoredKeysResponse", "keys")) r.Keys j
    ({ r with Keys := s.1 }, s.2)
  else (r, none)

/-- Store one object member into the named field of an `ErrorResponse`. -/
def ErrorResponse.setField (r : ErrorResponse) (name : String) (j : Json) :
    ErrorResponse × GoError :=
  if name = "Code" then
    let s := storeInt (some ("ErrorResponse", "Code")) r.Code j
    ({ r with Code := s.1 }, s.2)
  else if name = "Reason" then
    let s := storeString (some ("ErrorResponse", "Reason")) r.Reason j
    ({ r with Reason := s.1 }, s.2)
  else (r, none)

/-- The call `json.Unmarshal(respBody, &errResp)` with `errResp` an `ErrorResponse` variable:
the variable afterwards and the error returned. -/
def unmarshalErrorResponse (data : Body) (errResp : ErrorResponse) : ErrorResponse × GoError :=
  match data with
  | .malformed e => (errResp, some e)
  | .json doc =>
    decodeStruct "gclient.ErrorResponse" ["Code", "Reason"] ErrorResponse.setField errResp doc

/-- The call `json.Unmarshal(respBody, &succRespBox)` with `succRespBox` a variable of interface
type `ValueReader`: the variable afterwards and the error returned.  The target is a pointer to
the interface variable.  For a document other than `null`, `Unmarshal` follows the pointer the
interface holds and decodes into the struct behind it.  For `null` it stops at the interface
variable, which is settable, and applies the rule of the package documentation, "the JSON null
value unmarshals into an interface, map, pointer, or slice by setting that Go value to nil",
without error. -/
def unmarshalValueReader (data : Body) (succRespBox : ValueReader) : ValueReader × GoError :=
  match data with
  | .malformed e => (succRespBox, some e)
  | .json .null => (.nilValue, none)
  | .json doc =>
    match succRespBox with
    | .nilValue => (.nilValue, some (typeErrorText doc.kindName "gclient.ValueReader" none))
    | .getKeyResponse r =>
      let d := decodeStruct "gclient.GetKeyResponse" ["key", "value"] GetKeyResponse.setField r doc
      (.getKeyResponse d.1, d.2)
    | .setKeyResponse r =>
      let d := decodeStruct "gclient.SetKeyResponse" ["key", "value", "ttl"]
        SetKeyResponse.setField r doc
      (.setKeyResponse d.1, d.2)
    | .getKeySubResponse r =>
      let d := decodeStruct "gclient.GetKeySubResponse" ["key", "subkey", "subindex", "value"]
        GetKeySubResponse.setField r doc
      (.getKeySubResponse d.1, d.2)

/-- The call `json.Unmarshal(respBody, &succRespBox)` with `succRespBox` a variable of interface
type `KeyReader`; as for `ValueReader`, a JSON `null` sets the variable to nil. -/
def unmarshalKeyReader (data : Body) (succRespBox : KeyReader) : KeyReader × GoError :=
  match data with
  | .malformed e => (succRespBox, some e)
  | .json .null => (.nilValue, none)
  | .json doc =>
    match succRespBox with
    | .nilValue => (.nilValue, some (typeErrorText doc.kindName "gclient.KeyReader" none))
    | .getStoredKeysResponse r =>
      let d := decodeStruct "gclient.GetStoredKeysResponse" ["mask", "keys"]
        GetStoredKeysResponse.setField r doc
      (.getStoredKeysResponse d.1, d.2)

/-! ## operations.go -/

/-- Endpoint path and HTTP verb of an operation. -/
structure ApiOperation where
  Endpoint : String
  Method : String

/-- The table of supported REST operations. -/
def Operations : List (String × ApiOperation) :=
  [ ("GetKey", { Endpoint := "item", Method := "GET" }),
    ("GetKeySubKey", { Endpoint := "item", Method := "GET" }),
    ("GetKeySubIndex", { Endpoint := "item", Method := "GET" }),
    ("SetKey", { Endpoint := "item", Method := "POST" }),
    ("RemoveKey", { Endpoint := "item", Method := "DELETE" }),
    ("GetStoredKeys", { Endpoint := "keys", Method := "GET" }),
    ("GetStoredKeysMask", { Endpoint := "keys", Method := "GET" }) ]

/-- Function `buildURL`: `fmt.Sprintf("%s/%s", baseURL, endpoint)`. -/
def buildURL (baseURL endpoint : String) : String :=
  baseURL ++ "/" ++ endpoint

/-- Function `decodeError`: the error envelope decoded from the body, or the zero envelope and a
wrapped error. -/
def decodeError (respBody : Body) : ErrorResponse × GoError :=
  match unmarshalErrorResponse respBody { Code := 0, Reason := "" } with
  | (_, some err) => ({ Code := 0, Reason := "" }, some ("bad error model => " ++ err))
  | (errResp, none) => (errResp, none)

/-- Function `requestSucceed`. -/
def requestSucceed (responseStatus : Int) : Bool :=
  if responseStatus > 199 ∧ responseStatus < 300 then true else false

/-! ## client.go: response processing -/

/-- The constant `ERR_CODE_VALUE_NOT_FOUND`. -/
def ERR_CODE_VALUE_NOT_FOUND : Int := 21

/-- Function `processResponseValue`, returning the tuple (value, found flag, error). -/
def processResponseValue (respStatus : Int) (respBody : Body) (succRespBox : ValueReader)
    (failCode : Int) : Outcome (GoValue × Bool × GoError) :=
  if requestSucceed respStatus then
    match unmarshalValueReader respBody succRespBox with
    | (_, some err) => .returned (.nil, false, some ("bad response model => " ++ err))
    | (box, none) =>
      match box.GetValue with
      | .panicked why => .panicked why
      | .returned v => .returned (v, true, none)
  else
    match decodeError respBody with
    | (_, some err) => .returned (.nil, false, some ("bad error model => " ++ err))
    | (errResp, none) =>
      if errResp.Code = failCode then .returned (.nil, false, none)
      else .returned (.nil, false, some ("cache error => " ++ errResp.Reason))

/-- Function `processResponseKeys`, returning the tuple (key list, error); `none` is the nil
slice. -/
def processResponseKeys (respStatus : Int) (respBody : Body) (succRespBox : KeyReader) :
    Outcome (Option (List String) × GoError) :=
  if requestSucceed respStatus then
    match unmarshalKeyReader respBody succRespBox with
    | (_, some err) => .returned (none, some ("bad response model => " ++ err))
    | (box, none) =>
      match box.GetKeys with
      | .panicked why => .panicked why
      | .returned ks => .returned (ks, none)
  else
    match decodeError respBody with
    | (_, some err) => .returned (none, some ("bad error model => " ++ err))
    | (errResp, none) => .returned (none, some ("cache error => " ++ errResp.Reason))

/-! ## Requests and transport -/

/-- A Go value handed to `Set` as `interface{}`, represented by what `encoding/json` makes of it
when the request is encoded: the JSON it encodes to, or the encoder's error for an unsupported
value. -/
inductive AnyValue where
  | encodes (j : Json)
  | unsupported (err : String)

/-- Request body of `Get`. -/
structure GetKeyRequest where
  Key : String

/-- Request body of `GetSubKey`. -/
structure GetKeySubKeyRequest where
  Key : String
  SubKey : String

/-- Request body of `GetSubIndex`. -/
structure GetKeySubIndexRequest where
  Key : String
  SubIndex : Int

/-- Request body of `Set`. -/
structure SetKeyRequest where
  Key : String
  Value : AnyValue
  TTL : Int

/-- Request body of `Remove`. -/
structure RemoveKeyRequest where
  Key : String

/-- Request body of `KeysMask`. -/
structure GetStoredKeysRequest where
  Mask : String

/-- A non-nil `reqBox` handed to `makeRequest`. -/
inductive ReqBox where
  | getKey (r : GetKeyRequest)
  | getKeySubKey (r : GetKeySubKeyRequest)
  | getKeySubIndex (r : GetKeySubIndexRequest)
  | setKey (r : SetKeyRequest)
  | removeKey (r : RemoveKeyRequest)
  | getStoredKeys (r : GetStoredKeysRequest)

/-- The call `json.NewEncoder(&buff).Encode(reqBox)`: the document written, or the encoder's
error. -/
def encodeRequest : ReqBox → Except String Json
  | .getKey r => .ok (.obj [("key", .str r.Key)])
  | .getKeySubKey r => .ok (.obj [("key", .str r.Key), ("subkey", .str r.SubKey)])
  | .getKeySubIndex r => .ok (.obj [("key", .str r.Key), ("subindex", .num (toString r.SubIndex))])
  | .setKey r =>
    match r.Value with
    | .encodes j => .ok (.obj [("key", .str r.Key), ("value", j), ("ttl", .num (toString r.TTL))])
    | .unsupported err => .error err
  | .removeKey r => .ok (.obj [("key", .str r.Key)])
  | .getStoredKeys r => .ok (.obj [("mask", .str r.Mask)])

/-- An `*http.Request` as far as this package sets it up: verb, URL, body, the headers in the
order they were set, and the deadline in seconds when a timeout applies. -/
structure HTTPRequest where
  Method : String
  URL : String
  Body : Option Json
  Header : List (String × String)
  Deadline : Option Int

/-- An `*http.Response` as far as this package reads it: the status code and what
`ioutil.ReadAll(resp.Body)` returns. -/
structure HTTPResponse where
  StatusCode : Int
  Body : Except String Body

/-- What the package takes from the Go standard library as given: whether `http.NewRequest`
accepts a verb and URL, and the round trip of the default `http.Client`. -/
structure Stdlib where
  newRequestOK : String → String → Bool
  defaultDo : HTTPRequest → Except String HTTPResponse

/-- The struct `Client`; `HTTPClient` is the `Do` method of a non-nil `*http.Client`. -/
structure Client where
  BaseURL : String
  HTTPClient : HTTPRequest → Except String HTTPResponse

/-- The nil byte slice returned beside an error; the JSON scanner rejects it as empty input. -/
def nilBytes : Body := .malformed "unexpected end of JSON input"

/-- The call `http.NewRequest(method, url, body)`; `none` is the nil request returned with an
error. -/
def NewRequest (std : Stdlib) (method url : String) (body : Option Json) : Option HTTPRequest :=
  if std.newRequestOK method url then
    some { Method := method, URL := url, Body := body, Header := [], Deadline := none }
  else none

/-- The call `req.Header.Set(key, value)`. -/
def HTTPRequest.setHeader (req : HTTPRequest) (key value : String) : HTTPRequest :=
  { req with Header := req.Header.filter (fun kv => kv.1 ≠ key) ++ [(key, value)] }

/-- Function `NewClient`. -/
def NewClient (std : Stdlib) (cacheBaseURL : String) : Client :=
  if cacheBaseURL.utf8ByteSize > 7 then
    { BaseURL := cacheBaseURL, HTTPClient := std.defaultDo }
  else
    { BaseURL := "http://localhost:8080", HTTPClient := std.defaultDo }

/-- Method `(*Client).makeRequest`, returning the tuple (status, body, error).  The error of
`http.NewRequest` is discarded by the source, so a nil request makes the next statement, a
call of `req.Header.Set`, panic. -/
def Client.makeRequest (std : Stdlib) (c : Client) (opName : String) (reqBox : Option ReqBox)
    (timeout : Int) : Outcome (Int × Body × GoError) :=
  match Operations.lookup opName with
  | none => .returned (0, nilBytes, some ("no operation info => " ++ opName))
  | some opInfo =>
    let url := buildURL c.BaseURL opInfo.Endpoint
    let dial : HTTPRequest → Outcome (Int × Body × GoError) := fun req0 =>
      let req1 := req0.setHeader "Accept" "application/json"
      let req := if timeout > 0 then { req1 with Deadline := some timeout } else req1
      match c.HTTPClient req with
      | .error err => .returned (0, nilBytes, some ("cannot make request => " ++ err))
      | .ok resp =>
        match resp.Body with
        | .error err => .returned (0, nilBytes, some ("cannot read response body => " ++ err))
        | .ok body => .returned (resp.StatusCode, body, none)
    match reqBox with
    | some box =>
      match encodeRequest box with
      | .error err => .returned (0, nilBytes, some ("cannot encode request => " ++ err))
      | .ok buff =>
        match NewRequest std opInfo.Method url (some buff) with
        | none => .panicked nilDereference
        | some req => dial (req.setHeader "Content-Type" "application/json")
    | none =>
      match NewRequest std opInfo.Method url none with
      | none => .panicked nilDereference
      | some req => dial req

/-! ## client.go: the public methods -/

/-- Method `(*Client).Get`. -/
def Client.Get (std : Stdlib) (c : Client) (key : String) (timeout : Int) :
    Outcome (GoValue × Bool × GoError) :=
  match Client.makeRequest std c "GetKey" (some (.getKey { Key := key })) timeout with
  | .panicked why => .panicked why
  | .returned (_, _, some err) => .returned (.nil, false, some err)
  | .returned (respStatus, respBody, none) =>
    processResponseValue respStatus respBody (.getKeyResponse { Key := "", Value := .nil })
      ERR_CODE_VALUE_NOT_FOUND

/-- Method `(*Client).GetSubKey`. -/
def Client.GetSubKey (std : Stdlib) (c : Client) (key subKey : String) (timeout : Int) :
    Outcome (GoValue × Bool × GoError) :=
  match Client.makeRequest std c "GetKeySubKey"
      (some (.getKeySubKey { Key := key, SubKey := subKey })) timeout with
  | .panicked why => .panicked why
  | .returned (_, _, some err) => .returned (.nil, false, some err)
  | .returned (respStatus, respBody, none) =>
    processResponseValue respStatus respBody
      (.getKeySubResponse { Key := "", SubKey := "", SubIndex := 0, Value := .nil })
      ERR_CODE_VALUE_NOT_FOUND

/-- Method `(*Client).GetSubIndex`. -/
def Client.GetSubIndex (std : Stdlib) (c : Client) (key : String) (subIndex : Int)
    (timeout : Int) : Outcome (GoValue × Bool × GoError) :=
  match Client.makeRequest std c "GetKeySubIndex"
      (some (.getKeySubIndex { Key := key, SubIndex := subIndex })) timeout with
  | .panicked why => .panicked why
  | .returned (_, _, some err) => .returned (.nil, false, some err)
  | .returned (respStatus, respBody, none) =>
    processResponseValue respStatus respBody
      (.getKeySubResponse { Key := "", SubKey := "", SubIndex := 0, Value := .nil })
      ERR_CODE_VALUE_NOT_FOUND

/-- Method `(*Client).Set`. -/
def Client.Set (std : Stdlib) (c : Client) (key : String) (value : AnyValue) (keyttl : Int)
    (timeout : Int) : Outcome GoError :=
  match Client.makeRequest std c "SetKey"
      (some (.setKey { Key := key, Value := value, TTL := keyttl })) timeout with
  | .panicked why => .panicked why
  | .returned (_, _, some err) => .returned (some err)
  | .returned (respStatus, respBody, none) =>
    if requestSucceed respStatus then .returned none
    else
      match decodeError respBody with
      | (_, some err) => .returned (some ("bad error model => " ++ err))
      | (errResp, none) => .returned (some ("cache error => " ++ errResp.Reason))

/-- Method `(*Client).Remove`. -/
def Client.Remove (std : Stdlib) (c : Client) (key : String) (timeout : Int) : Outcome GoError :=
  match Client.makeRequest std c "RemoveKey" (some (.removeKey { Key := key })) timeout with
  | .panicked why => .panicked why
  | .returned (_, _, some err) => .returned (some err)
  | .returned (respStatus, respBody, none) =>
    if requestSucceed respStatus then .returned none
    else
      match decodeError respBody with
      | (_, some err) => .returned (some ("bad error model => " ++ err))
      | (errResp, none) => .returned (some ("cache error => " ++ errResp.Reason))

/-- Method `(*Client).Keys`. -/
def Client.Keys (std : Stdlib) (c : Client) (timeout : Int) :
    Outcome (Option (List String) × GoError) :=
  match Client.makeRequest std c "GetStoredKeys" none timeout with
  | .panicked why => .panicked why
  | .returned (_, _, some err) => .returned (none, some err)
  | .returned (respStatus, respBody, none) =>
    processResponseKeys respStatus respBody (.getStoredKeysResponse { Mask := "", Keys := none })

/-- Method `(*Client).KeysMask`. -/
def Client.KeysMask (std : Stdlib) (c : Client) (mask : String) (timeout : Int) :
    Outcome (Option (List String) × GoError) :=
  match Client.makeRequest std c "GetStoredKeysMask" (some (.getStoredKeys { Mask := mask }))
      timeout with
  | .panicked why => .panicked why
  | .returned (_, _, some err) => .returned (none, some err)
  | .returned (respStatus, respBody, none) =>
    processResponseKeys respStatus respBody (.getStoredKeysResponse { Mask := "", Keys := none })

/-! ## Derived notions and fixtures for concrete runs -/

/-- The error text that `Set`, `Remove`, `processResponseKeys` and the last branch of
`processResponseValue` build from a body on a status outside 200 to 299: from the reason when the
error envelope decodes, from the decoder's error otherwise.  It only names that shared text in
the lemmas below. -/
def serviceErrorText (respBody : Body) : String :=
  match decodeError respBody with
  | (_, some err) => "bad error model => " ++ err
  | (errResp, none) => "cache error => " ++ errResp.Reason


/-- A transport that answers every request with the given status and body. -/
def answering (status : Int) (body : Body) : HTTPRequest → Except String HTTPResponse :=
  fun _ => .ok { StatusCode := status, Body := .ok body }

/-- A client at the default base URL whose transport answers every request with the given status
and body. -/
def clientAnswering (status : Int) (body : Body) : Client :=
  { BaseURL := "http://localhost:8080", HTTPClient := answering status body }

/-- A client at the default base URL whose transport answers a POST with one status and body and
every other verb with another. -/
def clientByVerb (postStatus : Int) (postBody : Body) (otherStatus : Int) (otherBody : Body) :
    Client :=
  { BaseURL := "http://localhost:8080",
    HTTPClient := fun req =>
      if req.Method = "POST" then .ok { StatusCode := postStatus, Body := .ok postBody }
      else .ok { StatusCode := otherStatus, Body := .ok otherBody } }

/-- A standard library whose `http.NewRequest` accepts every verb and URL. -/
def plainStd : Stdlib :=
  { newRequestOK := fun _ _ => true, defaultDo := answering 200 (.json .null) }

/-- The envelope `Get` starts from: a pointer to a zero `GetKeyResponse`. -/
def freshGetKeyResponse : ValueReader := .getKeyResponse { Key := "", Value := .nil }

/-- The envelope `Keys` starts from: a pointer to a zero `GetStoredKeysResponse`. -/
def freshGetStoredKeysResponse : KeyReader := .getStoredKeysResponse { Mask := "", Keys := none }

/-! ## Supporting lemmas -/

/-- The function `requestSucceed` holds exactly for the statuses 200 to 299. -/
theorem requestSucceed_iff (s : Int) : requestSucceed s = true ↔ 200 ≤ s ∧ s ≤ 299 := by
  unfold requestSucceed
  constructor
  · intro h
    split at h
    · omega
    · cases h
  · intro h
    rw [if_pos (by omega)]

/-- Outside 200 to 299 `requestSucceed` is false. -/
theorem requestSucceed_of_outside (s : Int) (h : s < 200 ∨ 300 ≤ s) :
    requestSucceed s = false := by
  cases hr : requestSucceed s with
  | false => rfl
  | true =>
    have := (requestSucceed_iff s).1 hr
    omega

/-- On a status outside 200 to 299 `processResponseValue` depends only on `decodeError`. -/
theorem processResponseValue_outside (s : Int) (body : Body) (box : ValueReader) (fc : Int)
    (h : s < 200 ∨ 300 ≤ s) :
    processResponseValue s body box fc =
      match decodeError body with
      | (_, some err) => .returned (.nil, false, some ("bad error model => " ++ err))
      | (errResp, none) =>
        if errResp.Code = fc then .returned (.nil, false, none)
        else .returned (.nil, false, some ("cache error => " ++ errResp.Reason)) := by
  unfold processResponseValue
  rw [requestSucceed_of_outside s h]
  rfl

/-- On a status outside 200 to 299 `processResponseKeys` depends only on `decodeError`. -/
theorem processResponseKeys_outside (s : Int) (body : Body) (box : KeyReader)
    (h : s < 200 ∨ 300 ≤ s) :
    processResponseKeys s body box =
      match decodeError body with
      | (_, some err) => .returned (none, some ("bad error model => " ++ err))
      | (errResp, none) => .returned (none, some ("cache error => " ++ errResp.Reason)) := by
  unfold processResponseKeys
  rw [requestSucceed_of_outside s h]
  rfl

/-- The reason is part of the text `cache error => reason`. -/
theorem reason_infix (r : String) : r.data <:+: ("cache error => " ++ r).data := by
  rw [String.data_append]
  exact (List.suffix_append _ _).isInfix

/-- On a status outside 200 to 299 a response that is not the not-found sentinel makes
`processResponseValue` return the service error text. -/
theorem processResponseValue_serviceError (s : Int) (body : Body) (box : ValueReader) (fc : Int)
    (h : s < 200 ∨ 300 ≤ s) (hn : ¬ ∃ e, decodeError body = (e, none) ∧ e.Code = fc) :
    processResponseValue s body box fc = .returned (.nil, false, some (serviceErrorText body)) := by
  rw [processResponseValue_outside s body box fc h]
  unfold serviceErrorText
  rcases hd : decodeError body with ⟨e, _ | err⟩
  · have hc : ¬ e.Code = fc := fun hc => hn ⟨e, hd, hc⟩
    simp [hc]
  · rfl

/-- On a status outside 200 to 299 `processResponseKeys` returns the service error text. -/
theorem processResponseKeys_serviceError (s : Int) (body : Body) (box : KeyReader)
    (h : s < 200 ∨ 300 ≤ s) :
    processResponseKeys s body box = .returned (none, some (serviceErrorText body)) := by
  rw [processResponseKeys_outside s body box h]
  unfold serviceErrorText
  rcases hd : decodeError body with ⟨e, _ | err⟩ <;> rfl

/-- With the round trip given, `Set` on a status outside 200 to 299 returns the service error
text. -/
theorem set_serviceError (std : Stdlib) (c : Client) (key : String) (value : AnyValue)
    (keyttl timeout s : Int) (body : Body) (h : s < 200 ∨ 300 ≤ s)
    (hrt : Client.makeRequest std c "SetKey"
        (some (.setKey { Key := key, Value := value, TTL := keyttl })) timeout
      = .returned (s, body, none)) :
    Client.Set std c key value keyttl timeout = .returned (some (serviceErrorText body)) := by
  unfold Client.Set serviceErrorText
  rw [hrt]
  simp only [requestSucceed_of_outside s h]
  rcases hd : decodeError body with ⟨e, _ | err⟩ <;> rfl

/-- With the round trip given, `Remove` on a status outside 200 to 299 returns the service error
text. -/
theorem remove_serviceError (std : Stdlib) (c : Client) (key : String)
    (timeout s : Int) (body : Body) (h : s < 200 ∨ 300 ≤ s)
    (hrt : Client.makeRequest std c "RemoveKey" (some (.removeKey { Key := key })) timeout
      = .returned (s, body, none)) :
    Client.Remove std c key timeout = .returned (some (serviceErrorText body)) := by
  unfold Client.Remove serviceErrorText
  rw [hrt]
  simp only [requestSucceed_of_outside s h]
  rcases hd : decodeError body with ⟨e, _ | err⟩ <;> rfl

/-! ## The not-found sentinel (C1, C4) -/

/-- C1: on every status outside 200 to 299, a body that is the JSON object with the lower-case
keys `code` and `reason`, the number 21 and any string, in either order, makes
`processResponseValue` with fail code 21 return (nil value, found = false, nil error), whatever
envelope it was handed. -/
theorem processResponseValue_not_found (respStatus : Int) (r : String)
    (succRespBox : ValueReader) (hs : respStatus < 200 ∨ 300 ≤ respStatus) :
    processResponseValue respStatus (.json (.obj [("code", .num "21"), ("reason", .str r)]))
        succRespBox ERR_CODE_VALUE_NOT_FOUND = .returned (.nil, false, none)
    ∧ processResponseValue respStatus (.json (.obj [("reason", .str r), ("code", .num "21")]))
        succRespBox ERR_CODE_VALUE_NOT_FOUND = .returned (.nil, false, none) := by
  constructor <;> (rw [processResponseValue_outside _ _ _ _ hs]; rfl)

/-- C1 at status 404 with the reason `no such key`, on the envelope `Get` passes. -/
theorem processResponseValue_not_found_witness :
    processResponseValue 404 (.json (.obj [("code", .num "21"), ("reason", .str "no such key")]))
      freshGetKeyResponse ERR_CODE_VALUE_NOT_FOUND = .returned (.nil, false, none) :=
  (processResponseValue_not_found 404 "no such key" freshGetKeyResponse
    (Or.inr (by decide))).1

/-- C4: on every status outside 200 to 299, a body that does not decode into the error envelope
makes `processResponseValue` return (nil, false, non-nil error); the not-found result
(nil, false, nil) comes, on any status, only from a status outside 200 to 299 whose body decoded
into an error envelope carrying the fail code.  Bodies that are not JSON, and objects whose `code`
is a string, are among those that do not decode. -/
theorem processResponseValue_bad_error_model (respStatus : Int) (respBody : Body)
    (succRespBox : ValueReader) (failCode : Int)
    (hs : respStatus < 200 ∨ 300 ≤ respStatus) (hbad : (decodeError respBody).2 ≠ none) :
    (∃ msg, processResponseValue respStatus respBody succRespBox failCode
        = .returned (.nil, false, some msg))
    ∧ (∀ (s : Int) (b : Body) (box : ValueReader) (fc : Int),
        processResponseValue s b box fc = .returned (.nil, false, none) →
          (s < 200 ∨ 300 ≤ s) ∧ ∃ e, decodeError b = (e, none) ∧ e.Code = fc)
    ∧ (∀ scanErr, (decodeError (.malformed scanErr)).2 ≠ none)
    ∧ (∀ code rest, (decodeError (.json (.obj (("code", .str code) :: rest)))).2 ≠ none) := by
  refine ⟨?_, ?_, ?_, ?_⟩
  · rw [processResponseValue_outside _ _ _ _ hs]
    rcases hd : decodeError respBody with ⟨e, _ | err⟩
    · rw [hd] at hbad
      exact absurd rfl hbad
    · exact ⟨_, rfl⟩
  · intro s b box fc hres
    by_cases h2 : requestSucceed s = true
    · exfalso
      unfold processResponseValue at hres
      rw [h2] at hres
      simp only [if_true] at hres
      rcases hu : unmarshalValueReader b box with ⟨box1, _ | err⟩
      · rw [hu] at hres
        cases hg : box1.GetValue with
        | returned v => simp [hg] at hres
        | panicked why => simp [hg] at hres
      · rw [hu] at hres
        simp at hres
    · have hout : s < 200 ∨ 300 ≤ s := by
        have := (requestSucceed_iff s).not.1 h2
        omega
      refine ⟨hout, ?_⟩
      rw [processResponseValue_outside _ _ _ _ hout] at hres
      rcases hd : decodeError b with ⟨e, _ | err⟩
      · rw [hd] at hres
        by_cases hc : e.Code = fc
        · exact ⟨e, rfl, hc⟩
        · simp [hc] at hres
      · rw [hd] at hres
        simp at hres
  · intro scanErr
    simp [decodeError, unmarshalErrorResponse]
  · intro code rest
    have hm : matchField ["Code", "Reason"] "code" = some "Code" := by decide
    simp [decodeError, unmarshalErrorResponse, decodeStruct, decodeMembers, hm,
      ErrorResponse.setField, storeInt, saveError]

/-- C4 at status 500 with the body `code` = the string `21`, `reason` = `boom`. -/
theorem processResponseValue_bad_error_model_witness :
    ∃ msg, processResponseValue 500
        (.json (.obj [("code", .str "21"), ("reason", .str "boom")])) freshGetKeyResponse 21
      = .returned (.nil, false, some msg) :=
  (processResponseValue_bad_error_model 500
    (.json (.obj [("code", .str "21"), ("reason", .str "boom")])) freshGetKeyResponse 21
    (Or.inr (by decide)) (by simp [decodeError, unmarshalErrorResponse, decodeStruct,
      decodeMembers, show matchField ["Code", "Reason"] "code" = some "Code" by decide,
      ErrorResponse.setField, storeInt, saveError])).1

/-! ## The success path and the nil envelope (C2, C6, C9) -/

/-- C2: on every status from 200 to 299 and whatever envelope is passed, the body `null` is
accepted by `json.Unmarshal` without error, yet `processResponseValue` returns no tuple at all:
the interface variable has been set to nil and the call of `GetValue` panics. -/
theorem processResponseValue_null_panics (respStatus : Int) (succRespBox : ValueReader)
    (failCode : Int) (hs : 200 ≤ respStatus ∧ respStatus ≤ 299) :
    (unmarshalValueReader (.json .null) succRespBox).2 = none
    ∧ processResponseValue respStatus (.json .null) succRespBox failCode
        = .panicked nilDereference := by
  refine ⟨rfl, ?_⟩
  unfold processResponseValue
  rw [(requestSucceed_iff respStatus).2 hs]
  rfl

/-- C2 at status 204 on the envelope `Get` passes. -/
theorem processResponseValue_null_panics_witness :
    processResponseValue 204 (.json .null) freshGetKeyResponse ERR_CODE_VALUE_NOT_FOUND
      = .panicked nilDereference :=
  (processResponseValue_null_panics 204 freshGetKeyResponse ERR_CODE_VALUE_NOT_FOUND
    (by decide)).2

/-- C6: on every status from 200 to 299 and whatever envelope is passed, the body `null` is
accepted by `json.Unmarshal` without error, yet `processResponseKeys` returns no tuple at all:
the interface variable has been set to nil and the call of `GetKeys` panics. -/
theorem processResponseKeys_null_panics (respStatus : Int) (succRespBox : KeyReader)
    (hs : 200 ≤ respStatus ∧ respStatus ≤ 299) :
    (unmarshalKeyReader (.json .null) succRespBox).2 = none
    ∧ processResponseKeys respStatus (.json .null) succRespBox = .panicked nilDereference := by
  refine ⟨rfl, ?_⟩
  unfold processResponseKeys
  rw [(requestSucceed_iff respStatus).2 hs]
  rfl

/-- C6 at status 299 on the envelope `Keys` passes. -/
theorem processResponseKeys_null_panics_witness :
    processResponseKeys 299 (.json .null) freshGetStoredKeysResponse
      = .panicked nilDereference :=
  (processResponseKeys_null_panics 299 freshGetStoredKeysResponse (by decide)).2

/-- C9: a service that answers 200 with the body `null` makes `Get` and `Keys` panic; the two
processing functions panic on that status and body with the fresh envelopes the methods pass. -/
theorem get_and_keys_panic_on_null :
    Client.Get plainStd (clientAnswering 200 (.json .null)) "k" 0 = .panicked nilDereference
    ∧ Client.Keys plainStd (clientAnswering 200 (.json .null)) 0 = .panicked nilDereference
    ∧ processResponseValue 200 (.json .null) freshGetKeyResponse ERR_CODE_VALUE_NOT_FOUND
        = .panicked nilDereference
    ∧ processResponseKeys 200 (.json .null) freshGetStoredKeysResponse
        = .panicked nilDereference :=
  ⟨rfl, rfl, rfl, rfl⟩

/-- Away from the body `null`, and with a non-nil envelope, `processResponseValue` always returns
a tuple: found holds exactly on a status from 200 to 299 whose
body `json.Unmarshal` accepts, the value is then the one `GetValue` reads from the decoded
envelope and the error is nil; in every other case the value is nil. -/
theorem processResponseValue_found_iff (s : Int) (body : Body) (box : ValueReader) (fc : Int)
    (hbody : body ≠ .json .null) (hbox : box ≠ .nilValue) :
    ∃ v found err, processResponseValue s body box fc = .returned (v, found, err)
      ∧ (found = true ↔ (200 ≤ s ∧ s ≤ 299) ∧ (unmarshalValueReader body box).2 = none)
      ∧ (found = true →
          err = none ∧ (unmarshalValueReader body box).1.GetValue = .returned v)
      ∧ (found = false → v = .nil) := by
  by_cases h2 : requestSucceed s = true
  · have hr := (requestSucceed_iff s).1 h2
    unfold processResponseValue
    rw [h2]
    simp only [if_true]
    rcases hu : unmarshalValueReader body box with ⟨box1, _ | e⟩
    · have hne : box1 ≠ .nilValue := by
        intro hb
        subst hb
        cases body with
        | malformed m => exact hbox (by simpa [unmarshalValueReader] using congrArg Prod.fst hu)
        | json doc =>
          cases doc <;> cases box <;> simp_all [unmarshalValueReader]
      cases box1 with
      | nilValue => exact absurd rfl hne
      | getKeyResponse r =>
        exact ⟨_, true, none, rfl, by simp [hr], by simp [ValueReader.GetValue], by simp⟩
      | setKeyResponse r =>
        exact ⟨_, true, none, rfl, by simp [hr], by simp [ValueReader.GetValue], by simp⟩
      | getKeySubResponse r =>
        exact ⟨_, true, none, rfl, by simp [hr], by simp [ValueReader.GetValue], by simp⟩
    · exact ⟨_, false, _, rfl, by simp, by simp, by simp⟩
  · have hout : s < 200 ∨ 300 ≤ s := by
      have := (requestSucceed_iff s).not.1 h2
      omega
    have hno : ¬ (200 ≤ s ∧ s ≤ 299) := by omega
    rw [processResponseValue_outside _ _ _ _ hout]
    rcases hd : decodeError body with ⟨e, _ | err⟩
    · by_cases hc : e.Code = fc
      · exact ⟨.nil, false, none, by simp [hc], by simp [hno], by simp, by simp⟩
      · exact ⟨.nil, false, some ("cache error => " ++ e.Reason), by simp [hc], by simp [hno],
          by simp, by simp⟩
    · exact ⟨.nil, false, some ("bad error model => " ++ err), rfl, by simp [hno], by simp,
        by simp⟩

/-- Away from the body `null`, and with a non-nil envelope, `processResponseKeys` always returns
a tuple: the error is nil exactly on a status from 200 to 299
whose body `json.Unmarshal` accepts, the slice is then the one `GetKeys` reads from the decoded
envelope; in every other case the slice is nil. -/
theorem processResponseKeys_nil_error_iff (s : Int) (body : Body) (box : KeyReader)
    (hbody : body ≠ .json .null) (hbox : box ≠ .nilValue) :
    ∃ ks err, processResponseKeys s body box = .returned (ks, err)
      ∧ (err = none ↔ (200 ≤ s ∧ s ≤ 299) ∧ (unmarshalKeyReader body box).2 = none)
      ∧ (err = none → (unmarshalKeyReader body box).1.GetKeys = .returned ks)
      ∧ (err ≠ none → ks = none) := by
  by_cases h2 : requestSucceed s = true
  · have hr := (requestSucceed_iff s).1 h2
    unfold processResponseKeys
    rw [h2]
    simp only [if_true]
    rcases hu : unmarshalKeyReader body box with ⟨box1, _ | e⟩
    · have hne : box1 ≠ .nilValue := by
        intro hb
        subst hb
        cases body with
        | malformed m => exact hbox (by simpa [unmarshalKeyReader] using congrArg Prod.fst hu)
        | json doc =>
          cases doc <;> cases box <;> simp_all [unmarshalKeyReader]
      cases box1 with
      | nilValue => exact absurd rfl hne
      | getStoredKeysResponse r =>
        exact ⟨_, none, rfl, by simp [hr], by simp [KeyReader.GetKeys], by simp⟩
    · exact ⟨none, some ("bad response model => " ++ e), rfl, by simp, by simp, by simp⟩
  · have hout : s < 200 ∨ 300 ≤ s := by
      have := (requestSucceed_iff s).not.1 h2
      omega
    have hno : ¬ (200 ≤ s ∧ s ≤ 299) := by omega
    rw [processResponseKeys_outside _ _ _ hout]
    rcases hd : decodeError body with ⟨e, _ | err⟩
    · exact ⟨none, some ("cache error => " ++ e.Reason), rfl, by simp [hno], by simp, by simp⟩
    · exact ⟨none, some ("bad error model => " ++ err), rfl, by simp [hno], by simp, by simp⟩

/-! ## Service errors (C3, C5) -/

/-- When the error envelope decodes, the service error text is `cache error => ` followed by its
reason. -/
theorem serviceErrorText_of_decoded (body : Body) (e : ErrorResponse)
    (hd : decodeError body = (e, none)) :
    serviceErrorText body = "cache error => " ++ e.Reason := by
  unfold serviceErrorText
  rw [hd]

set_option maxRecDepth 8000 in
/-- C3, as the claim states it, fails: `Get` answered with status 500 and the body `code` = the
string `21`, `reason` = `boom` (not a not-found response) returns an error whose text does not
contain `boom`. -/
theorem get_error_omits_reason :
    Client.Get plainStd
        (clientAnswering 500 (.json (.obj [("code", .str "21"), ("reason", .str "boom")]))) "k" 0
      = .returned (.nil, false, some
          ("bad error model => bad error model => json: cannot unmarshal string "
            ++ "into Go struct field ErrorResponse.Code of type int"))
    ∧ ¬ ("boom".data <:+:
          ("bad error model => bad error model => json: cannot unmarshal string "
            ++ "into Go struct field ErrorResponse.Code of type int").data) := by
  refine ⟨rfl, ?_⟩
  decide

/-- The function `decodeError` returns a nil error exactly when `json.Unmarshal` into a zero
`ErrorResponse` does, and then returns the envelope it decoded. -/
theorem decodeError_ok_iff (body : Body) (e : ErrorResponse) :
    decodeError body = (e, none)
      ↔ unmarshalErrorResponse body { Code := 0, Reason := "" } = (e, none) := by
  unfold decodeError
  rcases hu : unmarshalErrorResponse body { Code := 0, Reason := "" } with ⟨e1, _ | j⟩
  · rfl
  · simp

/-- When `json.Unmarshal` into the error envelope fails with the text `jerr`, `decodeError`
returns the zero envelope and `bad error model => ` followed by `jerr`. -/
theorem decodeError_of_failed (body : Body) (e : ErrorResponse) (jerr : String)
    (hu : unmarshalErrorResponse body { Code := 0, Reason := "" } = (e, some jerr)) :
    decodeError body = ({ Code := 0, Reason := "" }, some ("bad error model => " ++ jerr)) := by
  unfold decodeError
  rw [hu]

/-- When `decodeError` fails with the text `err`, the service error text is
`bad error model => ` followed by `err`. -/
theorem serviceErrorText_of_failed (body : Body) (e : ErrorResponse) (err : String)
    (hd : decodeError body = (e, some err)) :
    serviceErrorText body = "bad error model => " ++ err := by
  unfold serviceErrorText
  rw [hd]

/-- C3, amended: for every operation, once its round trip produced a status outside 200 to 299
and a body, and unless the response is the not-found sentinel of a read (an error envelope with
code 21 answering `Get`, `GetSubKey` or `GetSubIndex`), the operation returns a non-nil error,
the same text `msg` for all seven.  When the body decodes into the error envelope, `msg` is
`cache error => ` followed by the envelope's reason and so contains it.  When the body does not
decode, `msg` is `bad error model => bad error model => ` followed by the error of
`json.Unmarshal`. -/
theorem non2xx_error_reports_reason (std : Stdlib) (c : Client) (key subKey mask : String)
    (subIndex keyttl timeout : Int) (value : AnyValue) (respStatus : Int) (respBody : Body)
    (hs : respStatus < 200 ∨ 300 ≤ respStatus) :
    ∃ msg : String,
      (∀ e, unmarshalErrorResponse respBody { Code := 0, Reason := "" } = (e, none) →
        msg = "cache error => " ++ e.Reason ∧ e.Reason.data <:+: msg.data)
      ∧ (∀ e jerr, unmarshalErrorResponse respBody { Code := 0, Reason := "" } = (e, some jerr) →
        msg = "bad error model => " ++ ("bad error model => " ++ jerr))
      ∧ ((¬ ∃ e, unmarshalErrorResponse respBody { Code := 0, Reason := "" } = (e, none)
            ∧ e.Code = 21) →
          (Client.makeRequest std c "GetKey" (some (.getKey { Key := key })) timeout
              = .returned (respStatus, respBody, none) →
            Client.Get std c key timeout = .returned (.nil, false, some msg))
          ∧ (Client.makeRequest std c "GetKeySubKey"
                (some (.getKeySubKey { Key := key, SubKey := subKey })) timeout
              = .returned (respStatus, respBody, none) →
            Client.GetSubKey std c key subKey timeout = .returned (.nil, false, some msg))
          ∧ (Client.makeRequest std c "GetKeySubIndex"
                (some (.getKeySubIndex { Key := key, SubIndex := subIndex })) timeout
              = .returned (respStatus, respBody, none) →
            Client.GetSubIndex std c key subIndex timeout = .returned (.nil, false, some msg)))
      ∧ (Client.makeRequest std c "SetKey"
            (some (.setKey { Key := key, Value := value, TTL := keyttl })) timeout
          = .returned (respStatus, respBody, none) →
        Client.Set std c key value keyttl timeout = .returned (some msg))
      ∧ (Client.makeRequest std c "RemoveKey" (some (.removeKey { Key := key })) timeout
          = .returned (respStatus, respBody, none) →
        Client.Remove std c key timeout = .returned (some msg))
      ∧ (Client.makeRequest std c "GetStoredKeys" none timeout
          = .returned (respStatus, respBody, none) →
        Client.Keys std c timeout = .returned (none, some msg))
      ∧ (Client.makeRequest std c "GetStoredKeysMask" (some (.getStoredKeys { Mask := mask }))
            timeout
          = .returned (respStatus, respBody, none) →
        Client.KeysMask std c mask timeout = .returned (none, some msg)) := by
  refine ⟨serviceErrorText respBody, ?_, ?_, ?_, ?_, ?_, ?_, ?_⟩
  · intro e hu
    rw [serviceErrorText_of_decoded respBody e ((decodeError_ok_iff respBody e).2 hu)]
    exact ⟨rfl, reason_infix e.Reason⟩
  · intro e jerr hu
    exact serviceErrorText_of_failed respBody _ _ (decodeError_of_failed respBody e jerr hu)
  · intro hn0
    have hn : ¬ ∃ e, decodeError respBody = (e, none) ∧ e.Code = ERR_CODE_VALUE_NOT_FOUND := by
      rintro ⟨e, hd, hc⟩
      exact hn0 ⟨e, (decodeError_ok_iff respBody e).1 hd, hc⟩
    refine ⟨?_, ?_, ?_⟩
    · intro hrt
      unfold Client.Get
      rw [hrt]
      exact processResponseValue_serviceError _ _ _ _ hs hn
    · intro hrt
      unfold Client.GetSubKey
      rw [hrt]
      exact processResponseValue_serviceError _ _ _ _ hs hn
    · intro hrt
      unfold Client.GetSubIndex
      rw [hrt]
      exact processResponseValue_serviceError _ _ _ _ hs hn
  · exact set_serviceError std c key value keyttl timeout respStatus respBody hs
  · exact remove_serviceError std c key timeout respStatus respBody hs
  · intro hrt
    unfold Client.Keys
    rw [hrt]
    exact processResponseKeys_serviceError _ _ _ hs
  · intro hrt
    unfold Client.KeysMask
    rw [hrt]
    exact processResponseKeys_serviceError _ _ _ hs

/-- C3, amended, at status 500: with the body `code` = 22, `reason` = `boom`, `Set` reports
`cache error => boom`; with the body `code` = the string `21`, `reason` = `boom`, `Keys` reports
the doubled `bad error model` text around the decoder's error. -/
theorem non2xx_error_reports_reason_witness :
    Client.Set plainStd
        (clientAnswering 500 (.json (.obj [("code", .num "22"), ("reason", .str "boom")])))
        "k" (.encodes (.str "v")) 60 0
      = .returned (some "cache error => boom")
    ∧ Client.Keys plainStd
        (clientAnswering 500 (.json (.obj [("code", .str "21"), ("reason", .str "boom")]))) 0
      = .returned (none, some
          ("bad error model => bad error model => json: cannot unmarshal string "
            ++ "into Go struct field ErrorResponse.Code of type int")) := by
  constructor
  · obtain ⟨msg, hmsg, _, _, hset, _⟩ := non2xx_error_reports_reason plainStd
      (clientAnswering 500 (.json (.obj [("code", .num "22"), ("reason", .str "boom")])))
      "k" "b" "*" 1 60 0 (.encodes (.str "v")) 500
      (.json (.obj [("code", .num "22"), ("reason", .str "boom")])) (Or.inr (by decide))
    have h1 := (hmsg { Code := 22, Reason := "boom" } rfl).1
    rw [hset rfl, h1]
    rfl
  · obtain ⟨msg, _, hbad, _, _, _, hkeys, _⟩ := non2xx_error_reports_reason plainStd
      (clientAnswering 500 (.json (.obj [("code", .str "21"), ("reason", .str "boom")])))
      "k" "b" "*" 1 60 0 (.encodes (.str "v")) 500
      (.json (.obj [("code", .str "21"), ("reason", .str "boom")])) (Or.inr (by decide))
    have h1 := hbad { Code := 0, Reason := "boom" }
      "json: cannot unmarshal string into Go struct field ErrorResponse.Code of type int" rfl
    rw [hkeys rfl, h1]
    rfl

/-- C5: `Set` and `Remove` each decide on their own round trip.  Once the round trip of `Set`
produced a status and a body, `Set` returns a nil error exactly when the status is from 200 to
299, whatever the body; on every other status it returns a non-nil error: `cache error => `
followed by the reason when the error envelope decodes, whatever its code, 21 included, and
`bad error model => ` followed by the error of `decodeError` when it does not.  The same holds
for `Remove` on the round trip of `Remove`. -/
theorem set_remove_nil_error_iff (std : Stdlib) (c : Client) (key : String) (value : AnyValue)
    (keyttl timeout : Int) :
    (∀ (respStatus : Int) (respBody : Body),
      Client.makeRequest std c "SetKey"
          (some (.setKey { Key := key, Value := value, TTL := keyttl })) timeout
        = .returned (respStatus, respBody, none) →
      (Client.Set std c key value keyttl timeout = .returned none
          ↔ 200 ≤ respStatus ∧ respStatus ≤ 299)
      ∧ (¬ (200 ≤ respStatus ∧ respStatus ≤ 299) →
          (∃ msg, Client.Set std c key value keyttl timeout = .returned (some msg))
          ∧ (∀ e, decodeError respBody = (e, none) →
              Client.Set std c key value keyttl timeout
                = .returned (some ("cache error => " ++ e.Reason)))
          ∧ (∀ e, decodeError respBody = (e, none) → e.Code = 21 →
              Client.Set std c key value keyttl timeout
                = .returned (some ("cache error => " ++ e.Reason)))
          ∧ (∀ e err, decodeError respBody = (e, some err) →
              Client.Set std c key value keyttl timeout
                = .returned (some ("bad error model => " ++ err)))))
    ∧ (∀ (respStatus : Int) (respBody : Body),
      Client.makeRequest std c "RemoveKey" (some (.removeKey { Key := key })) timeout
        = .returned (respStatus, respBody, none) →
      (Client.Remove std c key timeout = .returned none
          ↔ 200 ≤ respStatus ∧ respStatus ≤ 299)
      ∧ (¬ (200 ≤ respStatus ∧ respStatus ≤ 299) →
          (∃ msg, Client.Remove std c key timeout = .returned (some msg))
          ∧ (∀ e, decodeError respBody = (e, none) →
              Client.Remove std c key timeout
                = .returned (some ("cache error => " ++ e.Reason)))
          ∧ (∀ e, decodeError respBody = (e, none) → e.Code = 21 →
              Client.Remove std c key timeout
                = .returned (some ("cache error => " ++ e.Reason)))
          ∧ (∀ e err, decodeError respBody = (e, some err) →
              Client.Remove std c key timeout
                = .returned (some ("bad error model => " ++ err))))) := by
  constructor
  · intro respStatus respBody hset
    have hok : (200 ≤ respStatus ∧ respStatus ≤ 299) →
        Client.Set std c key value keyttl timeout = .returned none := by
      intro h
      have h2 := (requestSucceed_iff respStatus).2 h
      unfold Client.Set
      rw [hset]
      simp only [h2, if_true]
    have hbad : ¬ (200 ≤ respStatus ∧ respStatus ≤ 299) →
        Client.Set std c key value keyttl timeout
          = .returned (some (serviceErrorText respBody)) := by
      intro h
      exact set_serviceError std c key value keyttl timeout respStatus respBody (by omega) hset
    refine ⟨⟨?_, hok⟩, ?_⟩
    · intro h
      by_contra hn
      rw [hbad hn] at h
      simp at h
    · intro hn
      refine ⟨⟨_, hbad hn⟩, ?_, ?_, ?_⟩
      · intro e hd
        rw [← serviceErrorText_of_decoded respBody e hd]
        exact hbad hn
      · intro e hd _
        rw [← serviceErrorText_of_decoded respBody e hd]
        exact hbad hn
      · intro e err hd
        rw [← serviceErrorText_of_failed respBody e err hd]
        exact hbad hn
  · intro respStatus respBody hrem
    have hok : (200 ≤ respStatus ∧ respStatus ≤ 299) →
        Client.Remove std c key timeout = .returned none := by
      intro h
      have h2 := (requestSucceed_iff respStatus).2 h
      unfold Client.Remove
      rw [hrem]
      simp only [h2, if_true]
    have hbad : ¬ (200 ≤ respStatus ∧ respStatus ≤ 299) →
        Client.Remove std c key timeout = .returned (some (serviceErrorText respBody)) := by
      intro h
      exact remove_serviceError std c key timeout respStatus respBody (by omega) hrem
    refine ⟨⟨?_, hok⟩, ?_⟩
    · intro h
      by_contra hn
      rw [hbad hn] at h
      simp at h
    · intro hn
      refine ⟨⟨_, hbad hn⟩, ?_, ?_, ?_⟩
      · intro e hd
        rw [← serviceErrorText_of_decoded respBody e hd]
        exact hbad hn
      · intro e hd _
        rw [← serviceErrorText_of_decoded respBody e hd]
        exact hbad hn
      · intro e err hd
        rw [← serviceErrorText_of_failed respBody e err hd]
        exact hbad hn

/-- C5 at a service that answers POST with 500 and the body `code` = 21, `reason` = `boom`, and
DELETE with 204 and the body `null`: `Set` reports `cache error => boom`, with no not-found
treatment of code 21, and `Remove` returns a nil error without looking at the body. -/
theorem set_remove_nil_error_iff_witness :
    Client.Set plainStd
        (clientByVerb 500 (.json (.obj [("code", .num "21"), ("reason", .str "boom")]))
          204 (.json .null)) "k" (.encodes (.str "v")) 60 0
      = .returned (some "cache error => boom")
    ∧ Client.Remove plainStd
        (clientByVerb 500 (.json (.obj [("code", .num "21"), ("reason", .str "boom")]))
          204 (.json .null)) "k" 0
      = .returned none := by
  have h := set_remove_nil_error_iff plainStd
    (clientByVerb 500 (.json (.obj [("code", .num "21"), ("reason", .str "boom")]))
      204 (.json .null)) "k" (.encodes (.str "v")) 60 0
  constructor
  · exact ((h.1 500 (.json (.obj [("code", .num "21"), ("reason", .str "boom")])) rfl).2
      (by decide)).2.2.1 { Code := 21, Reason := "boom" } rfl rfl
  · exact ((h.2 204 (.json .null) rfl).1).2 (by decide)

/-! ## The operation table and URLs (C7, C8, C10) -/

/-- A text whose first character is not `n` does not start with `no operation info`. -/
theorem not_opinfo_of_first (p e : String) (ch : Char) (t : List Char)
    (hp : p.data = ch :: t) (hne : ch ≠ 'n') :
    ¬ ("no operation info".data <+: (p ++ e).data) := by
  rw [String.data_append, hp]
  show ¬ (('n' :: "o operation info".data) <+: (ch :: (t ++ e.data)))
  rw [List.cons_prefix_cons]
  rintro ⟨h, -⟩
  exact hne h.symm

/-- No text starting with `cannot make request` starts with `no operation info`. -/
theorem not_opinfo_make (e : String) :
    ¬ ("no operation info".data <+: ("cannot make request => " ++ e).data) :=
  not_opinfo_of_first _ e 'c' _ rfl (by decide)

/-- No text starting with `cannot encode request` starts with `no operation info`. -/
theorem not_opinfo_encode (e : String) :
    ¬ ("no operation info".data <+: ("cannot encode request => " ++ e).data) :=
  not_opinfo_of_first _ e 'c' _ rfl (by decide)

/-- No text starting with `cannot read response body` starts with `no operation info`. -/
theorem not_opinfo_read (e : String) :
    ¬ ("no operation info".data <+: ("cannot read response body => " ++ e).data) :=
  not_opinfo_of_first _ e 'c' _ rfl (by decide)

/-- No text starting with `cache error` starts with `no operation info`. -/
theorem not_opinfo_cache (e : String) :
    ¬ ("no operation info".data <+: ("cache error => " ++ e).data) :=
  not_opinfo_of_first _ e 'c' _ rfl (by decide)

/-- No text starting with `bad error model` starts with `no operation info`. -/
theorem not_opinfo_bad_error (e : String) :
    ¬ ("no operation info".data <+: ("bad error model => " ++ e).data) :=
  not_opinfo_of_first _ e 'b' _ rfl (by decide)

/-- No text starting with `bad response model` starts with `no operation info`. -/
theorem not_opinfo_bad_response (e : String) :
    ¬ ("no operation info".data <+: ("bad response model => " ++ e).data) :=
  not_opinfo_of_first _ e 'b' _ rfl (by decide)

/-- No error text of `processResponseValue` starts with `no operation info`. -/
theorem processResponseValue_error_text (s : Int) (body : Body) (box : ValueReader) (fc : Int)
    (v : GoValue) (found : Bool) (msg : String)
    (hres : processResponseValue s body box fc = .returned (v, found, some msg)) :
    ¬ ("no operation info".data <+: msg.data) := by
  unfold processResponseValue at hres
  repeat' split at hres
  all_goals simp at hres
  all_goals
    obtain ⟨-, -, rfl⟩ := hres
    first
      | exact not_opinfo_cache _
      | exact not_opinfo_bad_error _
      | exact not_opinfo_bad_response _

/-- No error text of `processResponseKeys` starts with `no operation info`. -/
theorem processResponseKeys_error_text (s : Int) (body : Body) (box : KeyReader)
    (ks : Option (List String)) (msg : String)
    (hres : processResponseKeys s body box = .returned (ks, some msg)) :
    ¬ ("no operation info".data <+: msg.data) := by
  unfold processResponseKeys at hres
  repeat' split at hres
  all_goals simp at hres
  all_goals
    obtain ⟨-, rfl⟩ := hres
    first
      | exact not_opinfo_cache _
      | exact not_opinfo_bad_error _
      | exact not_opinfo_bad_response _

/-- Every error `makeRequest` returns for a name found in the table comes from encoding, sending
or reading, and none of those texts starts with `no operation info`. -/
theorem makeRequest_found_error (std : Stdlib) (c : Client) (opName : String)
    (reqBox : Option ReqBox) (timeout : Int) (opInfo : ApiOperation)
    (hop : Operations.lookup opName = some opInfo) (st : Int) (body : Body) (msg : String)
    (hres : Client.makeRequest std c opName reqBox timeout = .returned (st, body, some msg)) :
    ¬ ("no operation info".data <+: msg.data) := by
  unfold Client.makeRequest at hres
  rw [hop] at hres
  simp only at hres
  repeat' split at hres
  all_goals simp at hres
  all_goals
    obtain ⟨-, -, rfl⟩ := hres
    first
      | exact not_opinfo_encode _
      | exact not_opinfo_make _
      | exact not_opinfo_read _

/-- No error `Get` returns starts with `no operation info`. -/
theorem get_error_text (std : Stdlib) (c : Client) (key : String) (timeout : Int)
    (v : GoValue) (found : Bool) (msg : String)
    (hres : Client.Get std c key timeout = .returned (v, found, some msg)) :
    ¬ ("no operation info".data <+: msg.data) := by
  unfold Client.Get at hres
  split at hres
  · simp at hres
  · rename_i hrt
    simp at hres
    obtain ⟨-, -, rfl⟩ := hres
    exact makeRequest_found_error std c "GetKey" _ _ _ rfl _ _ _ hrt
  · exact processResponseValue_error_text _ _ _ _ _ _ _ hres

/-- No error `GetSubKey` returns starts with `no operation info`. -/
theorem getSubKey_error_text (std : Stdlib) (c : Client) (key subKey : String) (timeout : Int)
    (v : GoValue) (found : Bool) (msg : String)
    (hres : Client.GetSubKey std c key subKey timeout = .returned (v, found, some msg)) :
    ¬ ("no operation info".data <+: msg.data) := by
  unfold Client.GetSubKey at hres
  split at hres
  · simp at hres
  · rename_i hrt
    simp at hres
    obtain ⟨-, -, rfl⟩ := hres
    exact makeRequest_found_error std c "GetKeySubKey" _ _ _ rfl _ _ _ hrt
  · exact processResponseValue_error_text _ _ _ _ _ _ _ hres

/-- No error `GetSubIndex` returns starts with `no operation info`. -/
theorem getSubIndex_error_text (std : Stdlib) (c : Client) (key : String)
    (subIndex timeout : Int) (v : GoValue) (found : Bool) (msg : String)
    (hres : Client.GetSubIndex std c key subIndex timeout = .returned (v, found, some msg)) :
    ¬ ("no operation info".data <+: msg.data) := by
  unfold Client.GetSubIndex at hres
  split at hres
  · simp at hres
  · rename_i hrt
    simp at hres
    obtain ⟨-, -, rfl⟩ := hres
    exact makeRequest_found_error std c "GetKeySubIndex" _ _ _ rfl _ _ _ hrt
  · exact processResponseValue_error_text _ _ _ _ _ _ _ hres

/-- No error `Set` returns starts with `no operation info`. -/
theorem set_error_text (std : Stdlib) (c : Client) (key : String) (value : AnyValue)
    (keyttl timeout : Int) (msg : String)
    (hres : Client.Set std c key value keyttl timeout = .returned (some msg)) :
    ¬ ("no operation info".data <+: msg.data) := by
  unfold Client.Set at hres
  split at hres
  · simp at hres
  · rename_i hrt
    simp at hres
    subst hres
    exact makeRequest_found_error std c "SetKey" _ _ _ rfl _ _ _ hrt
  · repeat' split at hres
    all_goals simp at hres
    all_goals
      subst hres
      first
        | exact not_opinfo_cache _
        | exact not_opinfo_bad_error _

/-- No error `Remove` returns starts with `no operation info`. -/
theorem remove_error_text (std : Stdlib) (c : Client) (key : String) (timeout : Int)
    (msg : String) (hres : Client.Remove std c key timeout = .returned (some msg)) :
    ¬ ("no operation info".data <+: msg.data) := by
  unfold Client.Remove at hres
  split at hres
  · simp at hres
  · rename_i hrt
    simp at hres
    subst hres
    exact makeRequest_found_error std c "RemoveKey" _ _ _ rfl _ _ _ hrt
  · repeat' split at hres
    all_goals simp at hres
    all_goals
      subst hres
      first
        | exact not_opinfo_cache _
        | exact not_opinfo_bad_error _

/-- No error `Keys` returns starts with `no operation info`. -/
theorem keys_error_text (std : Stdlib) (c : Client) (timeout : Int)
    (ks : Option (List String)) (msg : String)
    (hres : Client.Keys std c timeout = .returned (ks, some msg)) :
    ¬ ("no operation info".data <+: msg.data) := by
  unfold Client.Keys at hres
  split at hres
  · simp at hres
  · rename_i hrt
    simp at hres
    obtain ⟨-, rfl⟩ := hres
    exact makeRequest_found_error std c "GetStoredKeys" _ _ _ rfl _ _ _ hrt
  · exact processResponseKeys_error_text _ _ _ _ _ hres

/-- No error `KeysMask` returns starts with `no operation info`. -/
theorem keysMask_error_text (std : Stdlib) (c : Client) (mask : String) (timeout : Int)
    (ks : Option (List String)) (msg : String)
    (hres : Client.KeysMask std c mask timeout = .returned (ks, some msg)) :
    ¬ ("no operation info".data <+: msg.data) := by
  unfold Client.KeysMask at hres
  split at hres
  · simp at hres
  · rename_i hrt
    simp at hres
    obtain ⟨-, rfl⟩ := hres
    exact makeRequest_found_error std c "GetStoredKeysMask" _ _ _ rfl _ _ _ hrt
  · exact processResponseKeys_error_text _ _ _ _ _ hres

/-- C7: each of the seven operation names the public methods use is in the table, with the verb
and path of the protocol table; no error a public method returns is the `no operation info`
error of `makeRequest`; for every name outside the seven `makeRequest` returns that error. -/
theorem operations_table :
    Operations.lookup "GetKey" = some { Endpoint := "item", Method := "GET" }
    ∧ Operations.lookup "GetKeySubKey" = some { Endpoint := "item", Method := "GET" }
    ∧ Operations.lookup "GetKeySubIndex" = some { Endpoint := "item", Method := "GET" }
    ∧ Operations.lookup "SetKey" = some { Endpoint := "item", Method := "POST" }
    ∧ Operations.lookup "RemoveKey" = some { Endpoint := "item", Method := "DELETE" }
    ∧ Operations.lookup "GetStoredKeys" = some { Endpoint := "keys", Method := "GET" }
    ∧ Operations.lookup "GetStoredKeysMask" = some { Endpoint := "keys", Method := "GET" }
    ∧ (∀ (std : Stdlib) (c : Client) (key subKey mask : String) (value : AnyValue)
        (subIndex keyttl timeout : Int) (v : GoValue) (found : Bool)
        (ks : Option (List String)) (msg : String),
        (Client.Get std c key timeout = .returned (v, found, some msg)
          ∨ Client.GetSubKey std c key subKey timeout = .returned (v, found, some msg)
          ∨ Client.GetSubIndex std c key subIndex timeout = .returned (v, found, some msg)
          ∨ Client.Set std c key value keyttl timeout = .returned (some msg)
          ∨ Client.Remove std c key timeout = .returned (some msg)
          ∨ Client.Keys std c timeout = .returned (ks, some msg)
          ∨ Client.KeysMask std c mask timeout = .returned (ks, some msg)) →
        ¬ ("no operation info".data <+: msg.data))
    ∧ (∀ (std : Stdlib) (c : Client) (opName : String) (reqBox : Option ReqBox) (timeout : Int),
        opName ∉ ["GetKey", "GetKeySubKey", "GetKeySubIndex", "SetKey", "RemoveKey",
          "GetStoredKeys", "GetStoredKeysMask"] →
        Client.makeRequest std c opName reqBox timeout
          = .returned (0, nilBytes, some ("no operation info => " ++ opName))) := by
  refine ⟨rfl, rfl, rfl, rfl, rfl, rfl, rfl, ?_, ?_⟩
  · intro std c key subKey mask value subIndex keyttl timeout v found ks msg h
    rcases h with h | h | h | h | h | h | h
    · exact get_error_text _ _ _ _ _ _ _ h
    · exact getSubKey_error_text _ _ _ _ _ _ _ _ h
    · exact getSubIndex_error_text _ _ _ _ _ _ _ _ h
    · exact set_error_text _ _ _ _ _ _ _ h
    · exact remove_error_text _ _ _ _ _ h
    · exact keys_error_text _ _ _ _ _ h
    · exact keysMask_error_text _ _ _ _ _ _ h
  · intro std c opName reqBox timeout hmem
    simp only [List.mem_cons, List.mem_singleton, List.mem_nil_iff, or_false, not_or] at hmem
    obtain ⟨h1, h2, h3, h4, h5, h6, h7⟩ := hmem
    have e1 : (opName == "GetKey") = false := by simpa using h1
    have e2 : (opName == "GetKeySubKey") = false := by simpa using h2
    have e3 : (opName == "GetKeySubIndex") = false := by simpa using h3
    have e4 : (opName == "SetKey") = false := by simpa using h4
    have e5 : (opName == "RemoveKey") = false := by simpa using h5
    have e6 : (opName == "GetStoredKeys") = false := by simpa using h6
    have e7 : (opName == "GetStoredKeysMask") = false := by simpa using h7
    have hl : Operations.lookup opName = none := by
      simp only [Operations, List.lookup, e1, e2, e3, e4, e5, e6, e7]
    unfold Client.makeRequest
    rw [hl]

/-- C8: `buildURL` returns the base URL, one slash, and the endpoint, character for character;
a base that ends in a slash keeps it, so the result then has two. -/
theorem buildURL_eq (baseURL endpoint : String) :
    buildURL baseURL endpoint = baseURL ++ "/" ++ endpoint
    ∧ (buildURL baseURL endpoint).data = baseURL.data ++ '/' :: endpoint.data
    ∧ buildURL (baseURL ++ "/") endpoint = baseURL ++ "//" ++ endpoint := by
  refine ⟨rfl, ?_, ?_⟩
  · unfold buildURL
    rw [String.data_append, String.data_append]
    simp
  · unfold buildURL
    apply String.ext
    simp [String.data_append]

/-- C10: `NewClient` keeps a base URL longer than 7 bytes and replaces any other, those of 1 to 7
bytes included, by the default `http://localhost:8080`. -/
theorem NewClient_baseURL (std : Stdlib) (u : String) :
    (7 < u.utf8ByteSize → (NewClient std u).BaseURL = u)
    ∧ (u.utf8ByteSize ≤ 7 → (NewClient std u).BaseURL = "http://localhost:8080")
    ∧ (NewClient plainStd "http://").BaseURL = "http://localhost:8080"
    ∧ (NewClient plainStd "http://c").BaseURL = "http://c"
    ∧ (NewClient plainStd "http://localhost:8080/cache/v1").BaseURL
        = "http://localhost:8080/cache/v1" := by
  refine ⟨?_, ?_, rfl, rfl, rfl⟩
  · intro h
    unfold NewClient
    rw [if_pos h]
  · intro h
    unfold NewClient
    rw [if_neg (by omega)]

end Gclient
